import Mathlib

/-!
Verification development for the crewai-invoice-agent repository.

The Python source (src/main.py, src/tools/web_scraper.py, src/tools/export.py,
src/agents/invoice_analyst.py, src/agents/data_cleaner.py) is shallowly embedded
below.  Python exceptions are modelled with `Except PyErr`, the in-memory job
dictionary with the `Job`/`Sys` structures, and the external collaborators
(Serper search, website scraping, the two CrewAI crews, the Masumi payment gate)
as opaque function parameters collected in `Env`.
-/

/-- Python exception kinds that the embedded code can raise. -/
inductive PyErr
  | attributeError
  | typeError
  | indexError
  | keyError
  | nameError
  | valueError
deriving DecidableEq, Repr

/-- String rendering of an exception, as stored in the job's error field. -/
def errMessage : PyErr → String
  | .attributeError => "AttributeError"
  | .typeError => "TypeError"
  | .indexError => "IndexError"
  | .keyError => "KeyError"
  | .nameError => "NameError"
  | .valueError => "ValueError"

/-- Trace of calls made to the external collaborators during one operation.
The `structuring` entry records the legal-context argument handed to
the Invoice_Agents crew. -/
inductive Call
  | regulationQuery (query : String)
  | scrapeCall (link : String)
  | cleanerCall
  | structuring (legal : Option String)
  | renderer
deriving DecidableEq, Repr

/-- Return value of search_invoice_regulations: the dictionary
with the single key content (src/tools/web_scraper.py line 19). -/
structure Regulations where
  content : String
deriving DecidableEq, Repr

/-- Embedding of search_invoice_regulations (src/tools/web_scraper.py lines 18-60).
`search` models webCrawler.run returning the list of organic-result links,
`scrape` models scrape_websites.  In the equal-country branch the source appends
to the name sender_links, which is not defined in that branch, so any non-empty
search result raises a NameError before any page is scraped; with an empty
result the later loop runs over the never-populated list `links` and the
function returns empty content. -/
def searchInvoiceRegulations (search : String → List String) (scrape : String → String)
    (sender_country recipient_country : String) :
    Except PyErr Regulations × List Call :=
  if sender_country = recipient_country then
    let query := "Invoice regulations in " ++ sender_country
    match search query with
    | [] => (.ok ⟨""⟩, [Call.regulationQuery query])
    | _ :: _ => (.error .nameError, [Call.regulationQuery query])
  else
    let sender_query := "Invoice regulations in " ++ sender_country
    let sender_links := search sender_query
    let recipient_query := "Invoice regulations in " ++ recipient_country
    let reciever_links := search recipient_query
    (.ok ⟨String.join (sender_links.map scrape) ++ String.join (reciever_links.map scrape)⟩,
      [Call.regulationQuery sender_query] ++ sender_links.map Call.scrapeCall
        ++ [Call.regulationQuery recipient_query] ++ reciever_links.map Call.scrapeCall)

/-- The structured invoice record consumed by export_invoice_to_pdf
(the fields read in src/tools/export.py; the optional ones — logo and the
two tax identifiers — can be Python None, modelled by `Option.none`). -/
structure InvoiceData where
  sender_info : List String
  sender_country : String
  sender_VAT : Option String
  recipient_info : List String
  recipient_country : String
  reciever_VAT : Option String
  due_date : String
  transactions : List String
  quantities : List String
  unit_prices : List String
  unit_totals : List String
  total : String
  logo : Option String
  payment_notes : String
deriving DecidableEq, Repr

/-- One element of the rendered PDF layout.  Emissions guarded by the
optional-field checks get their own constructors so that omission is
observable. -/
inductive LayoutItem
  | textCell (s : String)
  | logoImage (path : String)
  | senderVATLine (s : String)
  | recieverVATLine (s : String)
  | tableCell (s : String)
  | billToRule
deriving DecidableEq, Repr

/-- Python truthiness of an optional-string value (None and the empty
string are falsy). -/
def pyTruthy : Option String → Bool
  | none => false
  | some s => s ≠ ""

/-- List indexing `xs[i]`, raising IndexError out of range. -/
def pyIndex (xs : List String) (i : Nat) : Except PyErr String :=
  match xs.get? i with
  | some x => .ok x
  | none => .error .indexError

/-- One iteration of the transaction-row loop of export_invoice_to_pdf
(src/tools/export.py lines 151-161): the row cells, or an IndexError when
one of the parallel lists is shorter than `transactions`. -/
def renderRow (d : InvoiceData) (i : Nat) : Except PyErr (List LayoutItem) :=
  match pyIndex d.transactions i, pyIndex d.quantities i,
      pyIndex d.unit_prices i, pyIndex d.unit_totals i with
  | .ok de, .ok q, .ok up, .ok ut =>
      .ok [LayoutItem.tableCell de, LayoutItem.tableCell q,
           LayoutItem.tableCell up, LayoutItem.tableCell ut]
  | .error e, _, _, _ => .error e
  | _, .error e, _, _ => .error e
  | _, _, .error e, _ => .error e
  | _, _, _, .error e => .error e

/-- The whole row loop over `range(len(transactions))`. -/
def renderRowsFrom (d : InvoiceData) : List Nat → Except PyErr (List LayoutItem)
  | [] => .ok []
  | i :: is =>
    match renderRow d i with
    | .error e => .error e
    | .ok r =>
      match renderRowsFrom d is with
      | .error e => .error e
      | .ok rest => .ok (r ++ rest)

/-- The transaction table body of the PDF. -/
def renderRows (d : InvoiceData) : Except PyErr (List LayoutItem) :=
  renderRowsFrom d (List.range d.transactions.length)

/-- Guarded emission used for logo and the two tax identifiers: the source
tests `value and value != 'None'` (truthiness plus not the sentinel string)
before emitting the cell. -/
def optionalItem (v : Option String) (mk : String → LayoutItem) : List LayoutItem :=
  match v with
  | some s => if s ≠ "" && s ≠ "None" then [mk s] else []
  | none => []

/-- Embedding of export_invoice_to_pdf (src/tools/export.py lines 20-184).
`timestamp` and `currentDate` stand for the two datetime.now() reads; the
produced PDF is modelled as the ordered list of layout items plus the
returned filename.  IndexErrors from `sender_info[0]`, `recipient_info[0]`
and the row loop propagate as in Python; the optional logo and VAT lines are
emitted only behind their truthiness-and-not-sentinel guards. -/
def exportInvoiceToPdf (timestamp currentDate : String) (invoice_data : InvoiceData) :
    Except PyErr (List LayoutItem × String) :=
  let filename := "invoice_" ++ timestamp ++ ".pdf"
  let headerItems := [LayoutItem.textCell "INVOICE"]
  let logoItems := optionalItem invoice_data.logo LayoutItem.logoImage
  let metaItems := [LayoutItem.textCell "Invoice Number", LayoutItem.textCell timestamp,
    LayoutItem.textCell "Issue Date", LayoutItem.textCell currentDate,
    LayoutItem.textCell "Due Date", LayoutItem.textCell invoice_data.due_date]
  match pyIndex invoice_data.sender_info 0 with
  | .error e => .error e
  | .ok sender0 =>
    let senderItems := LayoutItem.textCell sender0 ::
      (invoice_data.sender_info.drop 1).map LayoutItem.textCell
      ++ [LayoutItem.textCell invoice_data.sender_country]
      ++ optionalItem invoice_data.sender_VAT LayoutItem.senderVATLine
    match pyIndex invoice_data.recipient_info 0 with
    | .error e => .error e
    | .ok recipient0 =>
      let recipientItems := [LayoutItem.textCell "Bill To", LayoutItem.billToRule,
          LayoutItem.textCell recipient0]
        ++ (invoice_data.recipient_info.drop 1).map LayoutItem.textCell
        ++ [LayoutItem.textCell invoice_data.recipient_country]
        ++ optionalItem invoice_data.reciever_VAT LayoutItem.recieverVATLine
      let tableHeader := [LayoutItem.tableCell "Description", LayoutItem.tableCell "Quantity",
        LayoutItem.tableCell "Unit Price", LayoutItem.tableCell "Unit Total"]
      match renderRows invoice_data with
      | .error e => .error e
      | .ok rows =>
        let totalsItems := [LayoutItem.tableCell "Subtotal", LayoutItem.tableCell invoice_data.total,
          LayoutItem.tableCell "Total", LayoutItem.tableCell invoice_data.total]
        let notesItems := [LayoutItem.textCell "Payment Notes:",
          LayoutItem.textCell invoice_data.payment_notes]
        .ok (headerItems ++ logoItems ++ metaItems ++ senderItems ++ recipientItems
          ++ tableHeader ++ rows ++ totalsItems ++ notesItems, filename)

/-- The /start_job request body (src/main.py lines 59-79); every field is a
required pydantic `str`. -/
structure StartJobRequest where
  identifier_from_purchaser : String
  sender : String
  sender_address : String
  sender_country : String
  sender_contact : String
  sender_tax_number : String
  recipient : String
  recipient_address : String
  recipient_country : String
  recipient_contact : String
  recipient_tax_number : String
  due_date : String
  transactions : String
  logo : String
  payment_instructions : String
  invoice_notes : String
  extra_charges : String
  taxes : String
  transaction_notes : String
  currency : String
deriving DecidableEq, Repr

/-- The /provide_input request body (src/main.py lines 81-101): job_id plus
the same nineteen required string fields. -/
structure ProvideInputRequest where
  job_id : String
  sender : String
  sender_address : String
  sender_country : String
  sender_contact : String
  sender_tax_number : String
  recipient : String
  recipient_address : String
  recipient_country : String
  recipient_contact : String
  recipient_tax_number : String
  due_date : String
  transactions : String
  logo : String
  payment_instructions : String
  invoice_notes : String
  extra_charges : String
  taxes : String
  transaction_notes : String
  currency : String
deriving DecidableEq, Repr

/-- The invoice_dictionary built by execute_crew_task (src/main.py lines
107-127) and stored in the job's invoice_info slot on the success path.
`job_id` models the extra key that provide_input's merge loop writes into
the dictionary (it iterates the full model_dump, whose first key is job_id);
the key is absent (`none`) until such a merge happens. -/
structure InvoiceDict where
  sender : String
  sender_address : String
  sender_country : String
  sender_contact : String
  sender_tax_number : String
  recipient : String
  recipient_address : String
  recipient_country : String
  recipient_contact : String
  recipient_tax_number : String
  due_date : String
  transactions : String
  logo : String
  payment_instructions : String
  invoice_notes : String
  extra_charges : String
  taxes : String
  transaction_notes : String
  currency : String
  job_id : Option String := none
deriving DecidableEq, Repr

/-- The dictionary execute_crew_task builds from the request (all fields are
`str(...)` copies). -/
def invoiceDictOf (data : StartJobRequest) : InvoiceDict :=
  { sender := data.sender, sender_address := data.sender_address,
    sender_country := data.sender_country, sender_contact := data.sender_contact,
    sender_tax_number := data.sender_tax_number, recipient := data.recipient,
    recipient_address := data.recipient_address, recipient_country := data.recipient_country,
    recipient_contact := data.recipient_contact, recipient_tax_number := data.recipient_tax_number,
    due_date := data.due_date, transactions := data.transactions, logo := data.logo,
    payment_instructions := data.payment_instructions, invoice_notes := data.invoice_notes,
    extra_charges := data.extra_charges, taxes := data.taxes,
    transaction_notes := data.transaction_notes, currency := data.currency }

/-- The merge loop of provide_input (src/main.py lines 450-452): every entry
of the request's model_dump — job_id included — overwrites the stored
dictionary unless the value is None or the literal placeholder "string"
(pydantic guarantees the values are strings, so only the placeholder test
can skip a field). -/
def mergeInput (d : InvoiceDict) (req : ProvideInputRequest) : InvoiceDict :=
  { job_id := if req.job_id ≠ "string" then some req.job_id else d.job_id,
    sender := if req.sender ≠ "string" then req.sender else d.sender,
    sender_address := if req.sender_address ≠ "string" then req.sender_address else d.sender_address,
    sender_country := if req.sender_country ≠ "string" then req.sender_country else d.sender_country,
    sender_contact := if req.sender_contact ≠ "string" then req.sender_contact else d.sender_contact,
    sender_tax_number := if req.sender_tax_number ≠ "string" then req.sender_tax_number else d.sender_tax_number,
    recipient := if req.recipient ≠ "string" then req.recipient else d.recipient,
    recipient_address := if req.recipient_address ≠ "string" then req.recipient_address else d.recipient_address,
    recipient_country := if req.recipient_country ≠ "string" then req.recipient_country else d.recipient_country,
    recipient_contact := if req.recipient_contact ≠ "string" then req.recipient_contact else d.recipient_contact,
    recipient_tax_number := if req.recipient_tax_number ≠ "string" then req.recipient_tax_number else d.recipient_tax_number,
    due_date := if req.due_date ≠ "string" then req.due_date else d.due_date,
    transactions := if req.transactions ≠ "string" then req.transactions else d.transactions,
    logo := if req.logo ≠ "string" then req.logo else d.logo,
    payment_instructions := if req.payment_instructions ≠ "string" then req.payment_instructions else d.payment_instructions,
    invoice_notes := if req.invoice_notes ≠ "string" then req.invoice_notes else d.invoice_notes,
    extra_charges := if req.extra_charges ≠ "string" then req.extra_charges else d.extra_charges,
    taxes := if req.taxes ≠ "string" then req.taxes else d.taxes,
    transaction_notes := if req.transaction_notes ≠ "string" then req.transaction_notes else d.transaction_notes,
    currency := if req.currency ≠ "string" then req.currency else d.currency }

/-- The labelled invoice_info text block built by execute_crew_task
(src/main.py lines 129-157) and again, with the same fields, by
provide_input (lines 455-484). -/
def invoiceInfoText (d : InvoiceDict) : String :=
  "Sender: " ++ d.sender ++ "\nSender Address: " ++ d.sender_address
    ++ "\nSender Country: " ++ d.sender_country ++ "\nSender Contact: " ++ d.sender_contact
    ++ "\nSender tax number: " ++ d.sender_tax_number
    ++ "\nRecipient: " ++ d.recipient ++ "\nRecipient Address: " ++ d.recipient_address
    ++ "\nRecipient Country: " ++ d.recipient_country
    ++ "\nRecipient Contact: " ++ d.recipient_contact
    ++ "\nRecpient tax number: " ++ d.recipient_tax_number
    ++ "\nDue Date: " ++ d.due_date ++ "\nTransactions: " ++ d.transactions
    ++ "\nLogo: " ++ d.logo ++ "\nPayment Instructions: " ++ d.payment_instructions
    ++ "\nInvoice Notes: " ++ d.invoice_notes ++ "\nExtra Charges: " ++ d.extra_charges
    ++ "\nTaxes: " ++ d.taxes ++ "\nTransaction_notes: " ++ d.transaction_notes
    ++ "\nCurrency: " ++ d.currency

/-- The external collaborators, opaque to the orchestrator: the Serper
search (query to organic-result links), the website scraper, the
data-cleaning crew, the Invoice_Agents crew as invoked by provide_input
(invoice text and legal-context argument to a structured record plus the
compliance narrative, or an internal failure), whether complete_payment
succeeds, and the two datetime.now() reads of the exporter. -/
structure Env where
  search : String → List String
  scrape : String → String
  cleaner : String → String
  structuring : String → Option String → Except String (InvoiceData × String)
  completePaymentOk : Bool
  timestamp : String
  currentDate : String

/-- The Python value handed to execute_crew_task as its `data` argument:
`None`, the stored invoice_info dictionary, or an actual StartJobRequest
object (only the last has the `.sender` attribute the function reads). -/
inductive CrewArg
  | noneV
  | dictV (d : InvoiceDict)
  | requestV (r : StartJobRequest)

/-- What handle_payment_status actually passes: jobs[job_id]["invoice_info"]
(src/main.py line 264), which is None until a success path stores a plain
dictionary — never a StartJobRequest. -/
def crewArgOf : Option InvoiceDict → CrewArg
  | none => CrewArg.noneV
  | some d => CrewArg.dictV d

/-- Embedding of execute_crew_task (src/main.py lines 106-173).  Attribute
access `data.sender` on None or on a plain dictionary raises AttributeError
before anything else runs.  For a genuine request object the function builds
the dictionary and text, runs the regulation search and the cleaning crew,
and then evaluates `Invoice_Agents(invoice_info, legal_info, logger=logger)`
(line 162): Invoice_Agents.__init__ (src/agents/invoice_analyst.py line 45)
takes no logger keyword, so this call raises TypeError; the remaining source
lines (run_analysis, export_invoice_to_pdf, return) are unreachable. -/
def executeCrewTask (env : Env) (data : CrewArg) :
    Except PyErr (String × String × InvoiceDict) × List Call :=
  match data with
  | CrewArg.noneV => (.error .attributeError, [])
  | CrewArg.dictV _ => (.error .attributeError, [])
  | CrewArg.requestV r =>
    let d := invoiceDictOf r
    let _invoice_info := invoiceInfoText d
    match searchInvoiceRegulations env.search env.scrape r.sender_country r.recipient_country with
    | (.error e, calls) => (.error e, calls)
    | (.ok legal_info, calls) =>
      let _cleaned := env.cleaner legal_info.content
      (.error .typeError, calls ++ [Call.cleanerCall])

/-- One entry of the in-memory jobs dictionary (src/main.py lines 211-220).
Keys written only later — payment_status, analysis, error — are modelled as
`Option` fields with `none` meaning the key is absent; payment_status, once
present, can itself hold a Python None value, hence the nested option. -/
structure Job where
  status : String
  payment_id : String
  created_at : String
  result : Option String
  invoice_info : Option InvoiceDict
  input_data : StartJobRequest
  legal_analysis : Option String
  identifier_from_purchaser : String
  payment_status : Option (Option String) := none
  analysis : Option String := none
  error : Option String := none
deriving DecidableEq, Repr

/-- The orchestrator state for one job: its id, its dictionary entry, and
whether its payment instance is still registered in payment_instances. -/
structure Sys where
  jobId : String
  job : Job
  openSub : Bool
deriving DecidableEq, Repr

/-- The job entry persisted by /start_job (src/main.py lines 211-226) after
the payment request succeeds: status "awaiting payment", empty result and
invoice_info, the raw request as input_data, and an open payment
subscription. -/
def startJob (data : StartJobRequest) (jobId paymentId createdAt : String) : Sys :=
  { jobId := jobId,
    job := { status := "awaiting payment", payment_id := paymentId,
             created_at := createdAt, result := none, invoice_info := none,
             input_data := data, legal_analysis := none,
             identifier_from_purchaser := data.identifier_from_purchaser },
    openSub := true }

/-- Embedding of handle_payment_status (src/main.py lines 256-294).  The
status is set to "running", execute_crew_task is invoked on the stored
invoice_info value, and the try/except either records the success fields
(completing the payment first; a failure there lands in the except branch
like any other exception) or sets status "failed" with the stringified
error; both branches tear the payment instance down. -/
def handlePaymentStatus (env : Env) (s : Sys) : Sys × List Call :=
  let jobRunning := { s.job with status := "running" }
  match executeCrewTask env (crewArgOf jobRunning.invoice_info) with
  | (.error e, calls) =>
    let jobFailed := { jobRunning with status := "failed", error := some (errMessage e) }
    ({ s with job := jobFailed, openSub := false }, calls)
  | (.ok (pdfPath, legal, invoice_dictionary), calls) =>
    if env.completePaymentOk then
      let jobDone := { jobRunning with
        status := "completed"
        payment_status := some (some "completed")
        result := some pdfPath
        analysis := some legal
        invoice_info := some invoice_dictionary }
      ({ s with job := jobDone, openSub := false }, calls)
    else
      let jobFailed := { jobRunning with
        status := "failed"
        error := some "payment completion error" }
      ({ s with job := jobFailed, openSub := false }, calls)

/-- Outcome of the payment gate's check_payment_status as seen by
get_status: a status value (possibly a missing key, i.e. Python None), a
ValueError, or any other exception. -/
inductive GateStatus
  | ok (v : Option String)
  | valueError
  | otherError

/-- The payment-status value get_status folds into the job for each gate
outcome (src/main.py lines 311-319). -/
def gateValue : GateStatus → Option String
  | .ok v => v
  | .valueError => some "unknown"
  | .otherError => some "error"

/-- The /status response dictionary (src/main.py lines 321-326). -/
structure StatusResponse where
  job_id : String
  status : String
  payment_status : Option String
  result : Option String
deriving DecidableEq, Repr

/-- Embedding of get_status (src/main.py lines 298-326) for an existing job:
when the payment instance is still registered the gate is polled and the
outcome written into the job's payment_status key; the response then reads
job["payment_status"] unconditionally, raising KeyError when that key was
never written. -/
def getStatus (g : GateStatus) (s : Sys) : Except PyErr StatusResponse × Sys :=
  let job' := if s.openSub then { s.job with payment_status := some (gateValue g) } else s.job
  let s' : Sys := { s with job := job' }
  match job'.payment_status with
  | none => (.error .keyError, s')
  | some ps =>
    (.ok { job_id := s.jobId, status := job'.status, payment_status := ps,
           result := job'.result }, s')

/-- The /provide_input response: the job-not-found error body, or the
success body carrying the new PDF handle and the legal analysis. -/
inductive ProvideResponse
  | notFound
  | ok (current_pdf : String) (legal_analysis : String)
deriving DecidableEq, Repr

/-- Embedding of provide_input (src/main.py lines 432-502).  When the job's
invoice_info is still None the merge loop's first kept assignment (or,
failing that, the subsequent f-string reads) subscripts None and raises
TypeError, leaving the state unchanged.  Otherwise the sparse merge is
applied in place, the Invoice_Agents crew is re-run on the rebuilt text with
job["legal_analysis"] as its legal context, and the renderer is invoked; a
crew failure surfaces as the ValueError of unpacking run_analysis's error
dictionary, and renderer errors propagate — in both cases after the merge
has already been persisted and without the status/result updates.  On
success result is replaced and status set to "Success". -/
def provideInput (env : Env) (req : ProvideInputRequest) (s : Sys) :
    Except PyErr ProvideResponse × Sys × List Call :=
  if req.job_id = s.jobId then
    match s.job.invoice_info with
    | none => (.error .typeError, s, [])
    | some d =>
      let d' := mergeInput d req
      let s1 : Sys := { s with job := { s.job with invoice_info := some d' } }
      match env.structuring (invoiceInfoText d') s.job.legal_analysis with
      | .error _ => (.error .valueError, s1, [Call.structuring s.job.legal_analysis])
      | .ok (inv, legal) =>
        match exportInvoiceToPdf env.timestamp env.currentDate inv with
        | .error e =>
          (.error e, s1, [Call.structuring s.job.legal_analysis, Call.renderer])
        | .ok (_, filename) =>
          (.ok (.ok filename legal),
           { s1 with job := { s1.job with result := some filename, status := "Success" } },
           [Call.structuring s.job.legal_analysis, Call.renderer])
  else (.ok .notFound, s, [])

/-- The operations that can hit one job after its creation: a payment
callback, a status poll (with the gate outcome it observes), or a
provide_input request. -/
inductive Op
  | payCallback (env : Env)
  | getStat (g : GateStatus)
  | provInput (env : Env) (req : ProvideInputRequest)

/-- State effect of one operation on the job. -/
def stepOp (s : Sys) : Op → Sys
  | .payCallback env => (handlePaymentStatus env s).1
  | .getStat g => (getStatus g s).2
  | .provInput env req => (provideInput env req s).2.1

/-- Run a sequence of operations. -/
def runOps (s : Sys) : List Op → Sys
  | [] => s
  | op :: ops => runOps (stepOp s op) ops

/-- Whether some status query in the sequence is served while the job's
payment subscription is still open. -/
def queriedWhileOpen : Sys → List Op → Bool
  | _, [] => false
  | s, Op.getStat g :: ops =>
    s.openSub || queriedWhileOpen (stepOp s (Op.getStat g)) ops
  | s, Op.payCallback env :: ops => queriedWhileOpen (stepOp s (Op.payCallback env)) ops
  | s, Op.provInput env req :: ops => queriedWhileOpen (stepOp s (Op.provInput env req)) ops

-- Decidable equality for Except results, needed to evaluate the embedded
-- operations inside closed theorems.
deriving instance DecidableEq for Except

/-- The concrete start_job input of the spec's scenario: sender in Ireland,
recipient in Switzerland, one "Customer service" transaction, qty 1,
price €30.00. -/
def sampleRequest : StartJobRequest :=
  { identifier_from_purchaser := "buyer-1",
    sender := "Franz Shih",
    sender_address := "198 New Seskin Court, Whitestown Way",
    sender_country := "Ireland",
    sender_contact := "franz@example.ie",
    sender_tax_number := "None",
    recipient := "utxo AG",
    recipient_address := "Dottingerstrasse 21, CH5303 Wurenlingen",
    recipient_country := "Switzerland",
    recipient_contact := "info@utxo.ch",
    recipient_tax_number := "CHE494.509.135",
    due_date := "02 May, 2025",
    transactions := "Customer service, qty 1, price EUR 30.00",
    logo := "None",
    payment_instructions := "IBAN: CH30 0857 3102 5022 0181 4",
    invoice_notes := "None",
    extra_charges := "None",
    taxes := "None",
    transaction_notes := "None",
    currency := "EUR" }

/-- The invoice_dictionary execute_crew_task would build for that request. -/
def sampleDict : InvoiceDict := invoiceDictOf sampleRequest

/-- A well-formed structured record for the sample invoice: non-empty
address blocks and parallel singleton line-item lists. -/
def goodInvoice : InvoiceData :=
  { sender_info := ["Franz Shih", "198 New Seskin Court", "Whitestown Way"],
    sender_country := "Ireland",
    sender_VAT := none,
    recipient_info := ["utxo AG", "Dottingerstrasse 21", "CH5303 Wurenlingen"],
    recipient_country := "Switzerland",
    reciever_VAT := some "CH VAT CHE494.509.135 MWST",
    due_date := "02 May, 2025",
    transactions := ["Customer service"],
    quantities := ["1"],
    unit_prices := ["EUR 30.00"],
    unit_totals := ["EUR 30.00"],
    total := "EUR 30.00",
    logo := none,
    payment_notes := "IBAN: CH30 0857 3102 5022 0181 4" }

/-- A structuring output with three transaction descriptions but only two
quantities: the consistency failure of the spec's scenario. -/
def badInvoice : InvoiceData :=
  { goodInvoice with
    transactions := ["Customer service", "NMKR agent", "Masumi Payment"]
    quantities := ["1", "2"]
    unit_prices := ["EUR 30.00", "EUR 40.00", "EUR 25.00"]
    unit_totals := ["EUR 30.00", "EUR 80.00", "EUR 25.00"]
    total := "EUR 135.00" }

/-- An environment in which every external adapter succeeds. -/
def goodEnv : Env :=
  { search := fun _ => ["https://revenue.ie/invoicing"],
    scrape := fun _ => "Regulation text.",
    cleaner := fun s => s,
    structuring := fun _ _ =>
      Except.ok (goodInvoice, "Compliant for both Ireland and Switzerland."),
    completePaymentOk := true,
    timestamp := "20250101",
    currentDate := "01 January, 2025" }

/-- Same adapters, but the structuring stage returns the mismatched record. -/
def badEnv : Env :=
  { goodEnv with structuring := fun _ _ => Except.ok (badInvoice, "Mismatched record.") }

/-- A provide_input request for job j1 carrying one corrected field (the
due date); every other invoice field holds the Swagger placeholder
"string". -/
def sampleProvideReq : ProvideInputRequest :=
  { job_id := "j1",
    sender := "string", sender_address := "string", sender_country := "string",
    sender_contact := "string", sender_tax_number := "string",
    recipient := "string", recipient_address := "string", recipient_country := "string",
    recipient_contact := "string", recipient_tax_number := "string",
    due_date := "03 May, 2025",
    transactions := "string", logo := "string", payment_instructions := "string",
    invoice_notes := "string", extra_charges := "string", taxes := "string",
    transaction_notes := "string", currency := "string" }

/-- A job in the state the success path of handle_payment_status would
leave it: completed, invoice_info populated, result and analysis stored,
payment subscription torn down. -/
def completedJob : Sys :=
  { jobId := "j1",
    job := { status := "completed", payment_id := "p1", created_at := "t0",
             result := some "invoice_20250101.pdf", invoice_info := some sampleDict,
             input_data := sampleRequest, legal_analysis := none,
             identifier_from_purchaser := "buyer-1",
             payment_status := some (some "completed"),
             analysis := some "Compliant for both Ireland and Switzerland." },
    openSub := false }

/-- The status values of the spec's state machine (§4.5). -/
def specStatuses : List String := ["awaiting_payment", "running", "completed", "failed"]

/-- Claim C1 (code bug): a duplicate payment callback for a job that is
already completed is not a no-op — handle_payment_status has no terminal
guard, re-enters execute_crew_task (which raises AttributeError on the
stored dictionary), and flips the job's status from completed to failed. -/
theorem C1_duplicate_callback_flips_completed_job :
    (handlePaymentStatus goodEnv completedJob).1.job.status = "failed" ∧
    (handlePaymentStatus goodEnv completedJob).1.job.status ≠ "completed" ∧
    (handlePaymentStatus goodEnv completedJob).1.job.error = some "AttributeError" := by
  decide

/-- Claim C2 (code bug): operations assign status values outside the §4.5
state machine — start_job writes "awaiting payment" (not the machine's
token) and provide_input, on success, writes "Success", which is not a
state at all. -/
theorem C2_assigns_status_outside_machine :
    (startJob sampleRequest "j1" "p1" "t0").job.status = "awaiting payment" ∧
    "awaiting payment" ∉ specStatuses ∧
    (provideInput goodEnv sampleProvideReq completedJob).2.1.job.status = "Success" ∧
    "Success" ∉ specStatuses := by
  decide

/-- Claim C3 (code bug): for the concrete Ireland/Switzerland start_job
input, with every external adapter succeeding, the payment-confirmed
handler leaves the job failed with no result — it passes the job's
invoice_info slot (still None) instead of input_data to execute_crew_task,
which raises AttributeError before any pipeline stage runs. -/
theorem C3_payment_confirmation_fails_instead_of_completing :
    (handlePaymentStatus goodEnv (startJob sampleRequest "j1" "p1" "t0")).1.job.status = "failed" ∧
    (handlePaymentStatus goodEnv (startJob sampleRequest "j1" "p1" "t0")).1.job.result = none ∧
    (handlePaymentStatus goodEnv (startJob sampleRequest "j1" "p1" "t0")).1.job.error
      = some "AttributeError" ∧
    (handlePaymentStatus goodEnv (startJob sampleRequest "j1" "p1" "t0")).2 = [] := by
  decide

/-- Claim C6 (code bug): when the structuring stage returns three
descriptions but only two quantities, no orchestrator validation intervenes:
the renderer is invoked, its row loop raises IndexError, the exception
escapes provide_input uncaught, and the job's status stays what it was
instead of becoming failed. -/
theorem C6_mismatch_reaches_renderer_and_status_unchanged :
    (provideInput badEnv sampleProvideReq completedJob).1 = Except.error PyErr.indexError ∧
    Call.renderer ∈ (provideInput badEnv sampleProvideReq completedJob).2.2 ∧
    (provideInput badEnv sampleProvideReq completedJob).2.1.job.status = "completed" ∧
    (provideInput badEnv sampleProvideReq completedJob).2.1.job.status ≠ "failed" := by
  decide

/-- Claim C7 (code bug): with equal sender and recipient jurisdictions the
regulation source does issue exactly one search query, but it then raises
NameError (the branch appends to the undefined name sender_links), so the
concatenated regulation text is never returned. -/
theorem C7_same_jurisdiction_raises_nameerror :
    searchInvoiceRegulations (fun _ => ["https://revenue.ie/invoicing"])
        (fun _ => "Regulation text.") "Germany" "Germany"
      = (Except.error PyErr.nameError,
         [Call.regulationQuery "Invoice regulations in Germany"]) := by
  decide

/-- A provide_input request for job j1 whose invoice fields are all either
the empty string or the placeholder "string" — the shape the claim says
must leave the stored record unchanged. -/
def blankingReq : ProvideInputRequest :=
  { sampleProvideReq with sender := "", due_date := "string" }

/-- Claim C4, counterexample: the merge filter only skips None and the
literal "string" — an empty string does overwrite the stored sender, and
the request's job_id is written into the record as an extra key, so a call
whose fields are all empty or placeholder does change the stored record. -/
theorem C4_counterexample_empty_overwrites :
    mergeInput sampleDict blankingReq ≠ sampleDict ∧
    (mergeInput sampleDict blankingReq).sender = "" ∧
    sampleDict.sender = "Franz Shih" ∧
    (mergeInput sampleDict blankingReq).job_id = some "j1" ∧
    sampleDict.job_id = none := by
  decide

/-- Claim C4 as amended: each field of the stored record is overwritten
exactly when the supplied value differs from the placeholder literal
"string" (None being impossible for the required pydantic string fields) —
in particular an empty supplied value does overwrite — and the request's
job_id is additionally merged into the record under its own key. -/
theorem C4_merge_field_characterization (d : InvoiceDict) (req : ProvideInputRequest) :
    (mergeInput d req).sender = (if req.sender ≠ "string" then req.sender else d.sender) ∧
    (mergeInput d req).sender_address
      = (if req.sender_address ≠ "string" then req.sender_address else d.sender_address) ∧
    (mergeInput d req).sender_country
      = (if req.sender_country ≠ "string" then req.sender_country else d.sender_country) ∧
    (mergeInput d req).sender_contact
      = (if req.sender_contact ≠ "string" then req.sender_contact else d.sender_contact) ∧
    (mergeInput d req).sender_tax_number
      = (if req.sender_tax_number ≠ "string" then req.sender_tax_number else d.sender_tax_number) ∧
    (mergeInput d req).recipient
      = (if req.recipient ≠ "string" then req.recipient else d.recipient) ∧
    (mergeInput d req).recipient_address
      = (if req.recipient_address ≠ "string" then req.recipient_address else d.recipient_address) ∧
    (mergeInput d req).recipient_country
      = (if req.recipient_country ≠ "string" then req.recipient_country else d.recipient_country) ∧
    (mergeInput d req).recipient_contact
      = (if req.recipient_contact ≠ "string" then req.recipient_contact else d.recipient_contact) ∧
    (mergeInput d req).recipient_tax_number
      = (if req.recipient_tax_number ≠ "string" then req.recipient_tax_number
         else d.recipient_tax_number) ∧
    (mergeInput d req).due_date = (if req.due_date ≠ "string" then req.due_date else d.due_date) ∧
    (mergeInput d req).transactions
      = (if req.transactions ≠ "string" then req.transactions else d.transactions) ∧
    (mergeInput d req).logo = (if req.logo ≠ "string" then req.logo else d.logo) ∧
    (mergeInput d req).payment_instructions
      = (if req.payment_instructions ≠ "string" then req.payment_instructions
         else d.payment_instructions) ∧
    (mergeInput d req).invoice_notes
      = (if req.invoice_notes ≠ "string" then req.invoice_notes else d.invoice_notes) ∧
    (mergeInput d req).extra_charges
      = (if req.extra_charges ≠ "string" then req.extra_charges else d.extra_charges) ∧
    (mergeInput d req).taxes = (if req.taxes ≠ "string" then req.taxes else d.taxes) ∧
    (mergeInput d req).transaction_notes
      = (if req.transaction_notes ≠ "string" then req.transaction_notes
         else d.transaction_notes) ∧
    (mergeInput d req).currency
      = (if req.currency ≠ "string" then req.currency else d.currency) ∧
    (mergeInput d req).job_id
      = (if req.job_id ≠ "string" then some req.job_id else d.job_id) :=
  ⟨rfl, rfl, rfl, rfl, rfl, rfl, rfl, rfl, rfl, rfl,
   rfl, rfl, rfl, rfl, rfl, rfl, rfl, rfl, rfl, rfl⟩

/-- A layout item that is not one of the optional emissions (logo image or
tax-identifier line). -/
def nonOptionalItem : LayoutItem → Bool
  | .logoImage _ => false
  | .senderVATLine _ => false
  | .recieverVATLine _ => false
  | _ => true

theorem all_map_textCell (l : List String) :
    (l.map LayoutItem.textCell).all nonOptionalItem = true := by
  induction l with
  | nil => rfl
  | cons x xs ih => simp [List.all_cons, nonOptionalItem, ih]

theorem optionalItem_absent (v : Option String) (mk : String → LayoutItem)
    (h : v = none ∨ v = some "None") : optionalItem v mk = [] := by
  rcases h with h | h <;> subst h <;> rfl

theorem renderRow_ok (d : InvoiceData) (i : Nat)
    (h1 : i < d.transactions.length) (h2 : i < d.quantities.length)
    (h3 : i < d.unit_prices.length) (h4 : i < d.unit_totals.length) :
    ∃ r, renderRow d i = .ok r ∧ r.all nonOptionalItem = true := by
  unfold renderRow pyIndex
  rw [List.get?_eq_get h1, List.get?_eq_get h2, List.get?_eq_get h3, List.get?_eq_get h4]
  exact ⟨_, rfl, rfl⟩

theorem renderRowsFrom_ok (d : InvoiceData)
    (hq : d.transactions.length ≤ d.quantities.length)
    (hup : d.transactions.length ≤ d.unit_prices.length)
    (hut : d.transactions.length ≤ d.unit_totals.length) :
    ∀ is : List Nat, (∀ i ∈ is, i < d.transactions.length) →
      ∃ rows, renderRowsFrom d is = .ok rows ∧ rows.all nonOptionalItem = true := by
  intro is
  induction is with
  | nil => intro _; exact ⟨[], rfl, rfl⟩
  | cons i is ih =>
    intro hmem
    have hi : i < d.transactions.length := hmem i (List.mem_cons_self i is)
    obtain ⟨r, hr, hrall⟩ := renderRow_ok d i hi (lt_of_lt_of_le hi hq)
      (lt_of_lt_of_le hi hup) (lt_of_lt_of_le hi hut)
    obtain ⟨rows, hrows, hall⟩ := ih (fun j hj => hmem j (List.mem_cons_of_mem i hj))
    refine ⟨r ++ rows, ?_, ?_⟩
    · simp [renderRowsFrom, hr, hrows]
    · simp [List.all_append, hrall, hall]

/-- When the two address blocks and the transaction table all resolve, the
exporter returns exactly the concatenated layout. -/
theorem exportInvoiceToPdf_eq (ts cd : String) (d : InvoiceData)
    (s0 r0 : String) (rows : List LayoutItem)
    (hs0 : pyIndex d.sender_info 0 = .ok s0)
    (hr0 : pyIndex d.recipient_info 0 = .ok r0)
    (hrows : renderRows d = .ok rows) :
    exportInvoiceToPdf ts cd d = .ok
      ([LayoutItem.textCell "INVOICE"]
        ++ optionalItem d.logo LayoutItem.logoImage
        ++ [LayoutItem.textCell "Invoice Number", LayoutItem.textCell ts,
            LayoutItem.textCell "Issue Date", LayoutItem.textCell cd,
            LayoutItem.textCell "Due Date", LayoutItem.textCell d.due_date]
        ++ (LayoutItem.textCell s0 :: (d.sender_info.drop 1).map LayoutItem.textCell
            ++ [LayoutItem.textCell d.sender_country]
            ++ optionalItem d.sender_VAT LayoutItem.senderVATLine)
        ++ ([LayoutItem.textCell "Bill To", LayoutItem.billToRule, LayoutItem.textCell r0]
            ++ (d.recipient_info.drop 1).map LayoutItem.textCell
            ++ [LayoutItem.textCell d.recipient_country]
            ++ optionalItem d.reciever_VAT LayoutItem.recieverVATLine)
        ++ [LayoutItem.tableCell "Description", LayoutItem.tableCell "Quantity",
            LayoutItem.tableCell "Unit Price", LayoutItem.tableCell "Unit Total"]
        ++ rows
        ++ [LayoutItem.tableCell "Subtotal", LayoutItem.tableCell d.total,
            LayoutItem.tableCell "Total", LayoutItem.tableCell d.total]
        ++ [LayoutItem.textCell "Payment Notes:", LayoutItem.textCell d.payment_notes],
       "invoice_" ++ ts ++ ".pdf") := by
  unfold exportInvoiceToPdf
  rw [hs0, hr0, hrows]

/-- Claim C8: for every invoice record whose optional fields — logo,
sender tax identifier, recipient tax identifier — are absent (None or the
sentinel string "None"), and whose required parts are well-formed enough to
render at all, export_invoice_to_pdf succeeds and the produced layout
contains no logo image and no tax-identifier line: each of those emissions
sits behind an explicit truthiness-and-not-sentinel guard. -/
theorem C8_optional_fields_omitted (ts cd : String) (d : InvoiceData)
    (hlogo : d.logo = none ∨ d.logo = some "None")
    (hsv : d.sender_VAT = none ∨ d.sender_VAT = some "None")
    (hrv : d.reciever_VAT = none ∨ d.reciever_VAT = some "None")
    (hs : d.sender_info ≠ []) (hr : d.recipient_info ≠ [])
    (hq : d.transactions.length ≤ d.quantities.length)
    (hup : d.transactions.length ≤ d.unit_prices.length)
    (hut : d.transactions.length ≤ d.unit_totals.length) :
    ∃ items fn, exportInvoiceToPdf ts cd d = .ok (items, fn) ∧
      items.all nonOptionalItem = true := by
  have hps : pyIndex d.sender_info 0 = .ok (d.sender_info.get ⟨0, List.length_pos.mpr hs⟩) := by
    unfold pyIndex
    rw [List.get?_eq_get (List.length_pos.mpr hs)]
  have hpr : pyIndex d.recipient_info 0
      = .ok (d.recipient_info.get ⟨0, List.length_pos.mpr hr⟩) := by
    unfold pyIndex
    rw [List.get?_eq_get (List.length_pos.mpr hr)]
  obtain ⟨rows, hrows, hall⟩ := renderRowsFrom_ok d hq hup hut
    (List.range d.transactions.length) (fun i hi => List.mem_range.mp hi)
  refine ⟨_, _, exportInvoiceToPdf_eq ts cd d _ _ rows hps hpr hrows, ?_⟩
  simp only [List.all_append, List.all_cons, List.all_nil,
    optionalItem_absent _ _ hlogo, optionalItem_absent _ _ hsv, optionalItem_absent _ _ hrv,
    all_map_textCell, hall, nonOptionalItem, Bool.and_true, Bool.true_and]

/-- Closed witness for C8 at a concrete record with all optional fields
absent. -/
theorem C8_optional_fields_omitted_witness :
    ∃ items fn,
      exportInvoiceToPdf "20250101" "01 January, 2025"
          { goodInvoice with reciever_VAT := some "None" } = .ok (items, fn) ∧
      items.all nonOptionalItem = true :=
  C8_optional_fields_omitted "20250101" "01 January, 2025"
    { goodInvoice with reciever_VAT := some "None" }
    (Or.inl rfl) (Or.inl rfl) (Or.inr rfl)
    (by decide) (by decide) (by decide) (by decide) (by decide)

/-- The state every payment callback actually produces: since invoice_info
is only ever None or a plain dictionary, execute_crew_task raises
AttributeError at its first attribute access and the except branch runs. -/
def afterFailedCallback (s : Sys) : Sys :=
  let jobFailed := { s.job with status := "failed", error := some "AttributeError" }
  { s with job := jobFailed, openSub := false }

theorem handlePaymentStatus_always_fails (env : Env) (s : Sys) :
    handlePaymentStatus env s = (afterFailedCallback s, []) := by
  obtain ⟨jid, ⟨st, pid, cat, res, ii, ind, la, idp, ps, an, er⟩, op⟩ := s
  cases ii <;> rfl

theorem getStatus_state_closed (g : GateStatus) (s : Sys) (h : s.openSub = false) :
    (getStatus g s).2 = s := by
  obtain ⟨jid, ⟨st, pid, cat, res, ii, ind, la, idp, ps, an, er⟩, op⟩ := s
  have hop : op = false := h
  subst hop
  cases ps <;> rfl

theorem getStatus_preserves (g : GateStatus) (s : Sys) :
    (getStatus g s).2.job.status = s.job.status ∧
    (getStatus g s).2.openSub = s.openSub ∧
    (getStatus g s).2.job.invoice_info = s.job.invoice_info ∧
    (getStatus g s).2.job.legal_analysis = s.job.legal_analysis ∧
    (getStatus g s).2.jobId = s.jobId := by
  obtain ⟨jid, ⟨st, pid, cat, res, ii, ind, la, idp, ps, an, er⟩, op⟩ := s
  cases op <;> cases ps <;> exact ⟨rfl, rfl, rfl, rfl, rfl⟩

theorem provideInput_preserves (env : Env) (req : ProvideInputRequest) (s : Sys) :
    (provideInput env req s).2.1.job.payment_status = s.job.payment_status ∧
    (provideInput env req s).2.1.openSub = s.openSub ∧
    (provideInput env req s).2.1.job.legal_analysis = s.job.legal_analysis ∧
    (provideInput env req s).2.1.jobId = s.jobId := by
  unfold provideInput
  split
  · split
    · exact ⟨rfl, rfl, rfl, rfl⟩
    · dsimp only
      split
      · exact ⟨rfl, rfl, rfl, rfl⟩
      · split
        · exact ⟨rfl, rfl, rfl, rfl⟩
        · exact ⟨rfl, rfl, rfl, rfl⟩
  · exact ⟨rfl, rfl, rfl, rfl⟩

theorem provideInput_status_cases (env : Env) (req : ProvideInputRequest) (s : Sys) :
    (provideInput env req s).2.1.job.status = s.job.status ∨
    (provideInput env req s).2.1.job.status = "Success" := by
  unfold provideInput
  split
  · split
    · exact Or.inl rfl
    · dsimp only
      split
      · exact Or.inl rfl
      · split
        · exact Or.inl rfl
        · exact Or.inr rfl
  · exact Or.inl rfl

theorem provideInput_state_none (env : Env) (req : ProvideInputRequest) (s : Sys)
    (h : s.job.invoice_info = none) : (provideInput env req s).2.1 = s := by
  unfold provideInput
  split
  · rw [h]
  · rfl

theorem provideInput_none_typeerror (env : Env) (req : ProvideInputRequest) (s : Sys)
    (hid : req.job_id = s.jobId) (h : s.job.invoice_info = none) :
    (provideInput env req s).1 = .error PyErr.typeError := by
  unfold provideInput
  rw [if_pos hid, h]

theorem getStatus_keyerror (g : GateStatus) (s : Sys) (h : s.openSub = false)
    (hps : s.job.payment_status = none) :
    (getStatus g s).1 = .error PyErr.keyError := by
  obtain ⟨jid, ⟨st, pid, cat, res, ii, ind, la, idp, ps, an, er⟩, op⟩ := s
  have hop : op = false := h
  have hp : ps = none := hps
  subst hop
  subst hp
  rfl

theorem runOps_jobId (ops : List Op) : ∀ s : Sys, (runOps s ops).jobId = s.jobId := by
  induction ops with
  | nil => intro s; rfl
  | cons op ops ih =>
    intro s
    rw [runOps, ih (stepOp s op)]
    cases op with
    | payCallback env => rw [stepOp, handlePaymentStatus_always_fails]; rfl
    | getStat g => exact (getStatus_preserves _ _).2.2.2.2
    | provInput env req => exact (provideInput_preserves _ _ _).2.2.2

theorem runOps_invoice_info_none (ops : List Op) :
    ∀ s : Sys, s.job.invoice_info = none → (runOps s ops).job.invoice_info = none := by
  induction ops with
  | nil => intro s h; exact h
  | cons op ops ih =>
    intro s h
    rw [runOps]
    apply ih
    cases op with
    | payCallback env => rw [stepOp, handlePaymentStatus_always_fails]; exact h
    | getStat g => rw [stepOp, (getStatus_preserves _ _).2.2.1]; exact h
    | provInput env req => rw [stepOp, provideInput_state_none _ _ _ h]; exact h

theorem runOps_legal_analysis_none (ops : List Op) :
    ∀ s : Sys, s.job.legal_analysis = none → (runOps s ops).job.legal_analysis = none := by
  induction ops with
  | nil => intro s h; exact h
  | cons op ops ih =>
    intro s h
    rw [runOps]
    apply ih
    cases op with
    | payCallback env => rw [stepOp, handlePaymentStatus_always_fails]; exact h
    | getStat g => rw [stepOp, (getStatus_preserves _ _).2.2.2.1]; exact h
    | provInput env req => rw [stepOp, (provideInput_preserves _ _ _).2.2.1]; exact h

theorem runOps_payment_status_none (ops : List Op) :
    ∀ s : Sys, queriedWhileOpen s ops = false → s.job.payment_status = none →
      (runOps s ops).job.payment_status = none := by
  induction ops with
  | nil => intro s _ h; exact h
  | cons op ops ih =>
    intro s hq h
    rw [runOps]
    cases op with
    | payCallback env =>
      rw [queriedWhileOpen] at hq
      apply ih _ hq
      rw [stepOp, handlePaymentStatus_always_fails]
      exact h
    | getStat g =>
      rw [queriedWhileOpen, Bool.or_eq_false_iff] at hq
      apply ih _ hq.2
      rw [stepOp, getStatus_state_closed g s hq.1]
      exact h
    | provInput env req =>
      rw [queriedWhileOpen] at hq
      apply ih _ hq
      rw [stepOp, (provideInput_preserves _ _ _).1]
      exact h

theorem runOps_failed_closed (ops : List Op) :
    ∀ s : Sys, (s.job.status = "failed" → s.openSub = false) →
      ((runOps s ops).job.status = "failed" → (runOps s ops).openSub = false) := by
  induction ops with
  | nil => intro s h; exact h
  | cons op ops ih =>
    intro s h
    rw [runOps]
    apply ih
    cases op with
    | payCallback env =>
      rw [stepOp, handlePaymentStatus_always_fails]
      intro _
      rfl
    | getStat g =>
      intro hst
      rw [stepOp, (getStatus_preserves g s).2.1]
      rw [stepOp, (getStatus_preserves g s).1] at hst
      exact h hst
    | provInput env req =>
      intro hst
      rw [stepOp, (provideInput_preserves env req s).2.1]
      rw [stepOp] at hst
      rcases provideInput_status_cases env req s with hc | hc
      · exact h (by rw [hc] at hst; exact hst)
      · rw [hc] at hst
        exact absurd hst (by decide)

/-- True of every trace entry except a structuring call that received an
actual (non-None) legal-context argument. -/
def structuringArgIsNone : Call → Bool
  | Call.structuring l => l.isNone
  | _ => true

theorem provideInput_trace_context (env : Env) (req : ProvideInputRequest) (s : Sys)
    (h : s.job.legal_analysis = none) :
    ((provideInput env req s).2.2).all structuringArgIsNone = true := by
  unfold provideInput
  split
  · split
    · rfl
    · dsimp only
      split
      · rw [h]; rfl
      · split
        · rw [h]; rfl
        · rw [h]; rfl
  · rfl

/-- Claim C5 (code bug): after any operation history the job's
legal_analysis key still holds None — the success path stores the
compliance narrative under the separate analysis key and nothing ever
writes legal_analysis, and no regulatory context is persisted at all — so
every structuring call made by a provide_input re-entry receives None as
its legal-context argument, never a previously computed regulatory
context. -/
theorem C5_reentry_passes_no_regulatory_context (data : StartJobRequest)
    (jid pid cat : String) (ops : List Op) (env : Env) (req : ProvideInputRequest) :
    (runOps (startJob data jid pid cat) ops).job.legal_analysis = none ∧
    ((provideInput env req (runOps (startJob data jid pid cat) ops)).2.2).all
      structuringArgIsNone = true := by
  have hla := runOps_legal_analysis_none ops (startJob data jid pid cat) rfl
  exact ⟨hla, provideInput_trace_context env req _ hla⟩

/-- Claim C9: for every job that reaches status "failed" through any
history in which no status query was served while its payment subscription
was open, a subsequent get_status call raises KeyError — the failed branch
deletes the payment instance without ever writing the payment_status key,
which the response body then reads unconditionally. -/
theorem C9_failed_job_status_raises_keyerror (data : StartJobRequest)
    (jid pid cat : String) (ops : List Op) (g : GateStatus)
    (hq : queriedWhileOpen (startJob data jid pid cat) ops = false)
    (hf : (runOps (startJob data jid pid cat) ops).job.status = "failed") :
    (getStatus g (runOps (startJob data jid pid cat) ops)).1
      = Except.error PyErr.keyError := by
  have hps := runOps_payment_status_none ops (startJob data jid pid cat) hq rfl
  have hcl := runOps_failed_closed ops (startJob data jid pid cat)
    (fun hst =>
      absurd (show ("awaiting payment" : String) = "failed" from hst) (by decide)) hf
  exact getStatus_keyerror g _ hcl hps

/-- Closed witness for C9: a job whose payment callback fails immediately,
then a status query. -/
theorem C9_failed_job_status_raises_keyerror_witness :
    (getStatus (GateStatus.ok none)
        (runOps (startJob sampleRequest "j1" "p1" "t0") [Op.payCallback goodEnv])).1
      = Except.error PyErr.keyError :=
  C9_failed_job_status_raises_keyerror sampleRequest "j1" "p1" "t0"
    [Op.payCallback goodEnv] (GateStatus.ok none) (by decide) (by decide)

/-- Claim C10: after any operation history the job's invoice_info field is
still None — it is only assigned by the success path of the payment
handler, which is unreachable — and therefore every provide_input call
addressed at the job raises TypeError when it tries to merge fields into
None; re-entry with corrections would only be possible after a successful
completion. -/
theorem C10_provide_input_typeerror_before_completion (data : StartJobRequest)
    (jid pid cat : String) (ops : List Op) (env : Env) (req : ProvideInputRequest)
    (hid : req.job_id = jid) :
    (runOps (startJob data jid pid cat) ops).job.invoice_info = none ∧
    (provideInput env req (runOps (startJob data jid pid cat) ops)).1
      = Except.error PyErr.typeError := by
  have hii := runOps_invoice_info_none ops (startJob data jid pid cat) rfl
  refine ⟨hii, provideInput_none_typeerror env req _ ?_ hii⟩
  rw [runOps_jobId]
  exact hid

/-- Closed witness for C10: provide_input after a failed payment callback
raises TypeError. -/
theorem C10_provide_input_typeerror_before_completion_witness :
    (runOps (startJob sampleRequest "j1" "p1" "t0")
        [Op.payCallback goodEnv]).job.invoice_info = none ∧
    (provideInput goodEnv sampleProvideReq
        (runOps (startJob sampleRequest "j1" "p1" "t0") [Op.payCallback goodEnv])).1
      = Except.error PyErr.typeError :=
  C10_provide_input_typeerror_before_completion sampleRequest "j1" "p1" "t0"
    [Op.payCallback goodEnv] goodEnv sampleProvideReq rfl
